import Mathlib

/-
Verification development for the wav package of r9y9/go-dsp.

The Go source is shallowly embedded as follows:
  * a byte buffer ([]byte) is a List Nat whose entries are byte values;
  * machine integers are Nat / Int with explicit reduction modulo 2^w at the
    points where the Go code performs a narrowing conversion or a wrapping op;
  * a Go function that can return an error, or abort with a runtime panic
    (index out of range, slice bounds out of range, integer divide by zero),
    returns a GoResult;
  * a Go byte slice is a list of visible bytes together with the spare
    capacity behind them: an index expression b[i] requires i < len(b), but a
    slice expression b[lo:hi] requires only hi <= cap(b), and reslicing past
    the length exposes the backing array. The buffer returned by
    ioutil.ReadAll starts from make([]byte, 0, 512), so its capacity is at
    least 512 and at least its length, and with bytes.Reader-style reads
    (which copy exactly the delivered bytes) the spare region keeps the zeros
    of make. Buffers created by make([]byte, n) have capacity exactly n, so
    their spare capacity is 0;
  * an io.Reader is modelled as the list of bytes it will deliver, with the
    semantics of bytes.Reader: a Read on a non-empty stream returns up to the
    requested number of bytes, a Read on an exhausted stream returns an
    EOF error.
-/

/-- Outcome of running a piece of Go code: a normal return value, a returned
error value, or a runtime panic. -/
inductive GoResult (α : Type) where
  | ok : α → GoResult α
  | error : String → GoResult α
  | panic : String → GoResult α
deriving DecidableEq, Repr

/-- Sequencing of Go code: an error return or a panic aborts the rest. -/
def GoResult.bind {α β : Type} : GoResult α → (α → GoResult β) → GoResult β
  | .ok a, f => f a
  | .error s, _ => .error s
  | .panic s, _ => .panic s

/-- Go indexing b[i]: panics when the index is out of range. -/
def goIdx {α : Type} (l : List α) (i : Nat) : GoResult α :=
  match l[i]? with
  | some v => .ok v
  | none => .panic "runtime error: index out of range"

/-- Go slicing b[lo:hi] on a slice whose backing array extends extra zeroed
bytes past the length: panics unless lo <= hi <= cap(b) = len(b) + extra
(Go bounds slice expressions by capacity, not length); within capacity it
yields the bytes of the backing array, zeros past the length. -/
def goSliceCap (b : List Nat) (extra lo hi : Nat) : GoResult (List Nat) :=
  if lo ≤ hi ∧ hi ≤ b.length + extra then
    .ok (((b ++ List.replicate extra 0).drop lo).take (hi - lo))
  else .panic "runtime error: slice bounds out of range"

/-- Truncation to a Go int16 (two\x27s complement). -/
def toGoInt16 (x : Int) : Int :=
  if x % 65536 < 32768 then x % 65536 else x % 65536 - 65536

/-- Truncation to a Go uint8. -/
def toGoUint8 (x : Int) : Nat :=
  (x % 256).toNat

/-- little-endian [4]byte to uint32 conversion (bLEtoUint32 in the source).
For byte-valued entries the reduction mod 2^32 is the identity. -/
def bLEtoUint32 (b : List Nat) (idx : Nat) : GoResult Nat :=
  (goIdx b (idx + 3)).bind fun b3 =>
  (goIdx b (idx + 2)).bind fun b2 =>
  (goIdx b (idx + 1)).bind fun b1 =>
  (goIdx b idx).bind fun b0 =>
  .ok ((b3 * 16777216 + b2 * 65536 + b1 * 256 + b0) % 4294967296)

/-- little-endian [2]byte to uint16 conversion (bLEtoUint16 in the source). -/
def bLEtoUint16 (b : List Nat) (idx : Nat) : GoResult Nat :=
  (goIdx b (idx + 1)).bind fun b1 =>
  (goIdx b idx).bind fun b0 =>
  .ok ((b1 * 256 + b0) % 65536)

/-- little-endian [2]byte to int16 conversion (bLEtoInt16 in the source):
int16(b[idx+1])<<8 + int16(b[idx]), where the shift and the addition wrap in
the int16 domain. -/
def bLEtoInt16 (b : List Nat) (idx : Nat) : GoResult Int :=
  (goIdx b (idx + 1)).bind fun b1 =>
  (goIdx b idx).bind fun b0 =>
  .ok (toGoInt16 (toGoInt16 ((b1 : Int) * 256) + (b0 : Int)))

def RIFFMarkerOffset : Nat := 0
def WAVEMarkerOffset : Nat := 8
def FMTMarkerOffset : Nat := 12
def AudioFormatOffset : Nat := 20
def NumChannelsOffset : Nat := 22
def SampleRateOffset : Nat := 24
def ByteRateOffset : Nat := 28
def BlockAlignOffset : Nat := 32
def BitsPerSampleOffset : Nat := 34

/-- ASCII bytes of the string RIFF. -/
def asciiRIFF : List Nat := [82, 73, 70, 70]
/-- ASCII bytes of the string WAVE. -/
def asciiWAVE : List Nat := [87, 65, 86, 69]
/-- ASCII bytes of the string fmt followed by a space. -/
def asciiFmt : List Nat := [102, 109, 116, 32]
/-- ASCII bytes of the string data. -/
def asciiData : List Nat := [100, 97, 116, 97]

/-- The buffer b contains the 4-byte sequence data starting at byte offset i. -/
abbrev dataAt (b : List Nat) (i : Nat) : Prop := (b.drop i).take 4 = asciiData

/-- Helper for getDataMarkerOffset: linear scan for the first occurrence of
data, starting at offset i, with fuel more offsets to try. -/
def findDataAux (b : List Nat) (i : Nat) (fuel : Nat) : Option Nat :=
  match fuel with
  | 0 => none
  | f + 1 => if (b.drop i).take 4 = asciiData then some i else findDataAux b (i + 1) f

/-- getDataMarkerOffset from the source: byte offset of the first occurrence
of data in the buffer (strings.Index), or none when absent (the source
returns -1). -/
def getDataMarkerOffset (filedata : List Nat) : Option Nat :=
  findDataAux filedata 0 filedata.length

def errRIFFMsg : String := "wav: Header does not contain \x27RIFF\x27"
def errWAVEMsg : String := "wav: Header does not contain \x27WAVE\x27"
def errFmtMsg : String := "wav: Header does not contain \x27fmt\x27"
def errDataMsg : String := "wav: Header does not contain \x27data\x27"
def errNotFoundMsg : String := "data header not found"
def errMisalignedMsg : String := "wav: Read an invalid amount of data"

/-- checkHeader from the source: the four marker checks, in source order,
each failing with the corresponding error string. The extra argument is the
spare capacity of the header slice (0 for buffers from make([]byte, n),
positive for the ReadAll buffer), which bounds the slice expressions. -/
def checkHeader (header : List Nat) (extra : Nat) (datamarkeroffset : Nat) : GoResult Unit :=
  (goSliceCap header extra 0 4).bind fun s1 =>
  if s1 = asciiRIFF then
    (goSliceCap header extra 8 12).bind fun s2 =>
    if s2 = asciiWAVE then
      (goSliceCap header extra 12 16).bind fun s3 =>
      if s3 = asciiFmt then
        (goSliceCap header extra datamarkeroffset (datamarkeroffset + 4)).bind fun s4 =>
        if s4 = asciiData then .ok () else .error errDataMsg
      else .error errFmtMsg
    else .error errWAVEMsg
  else .error errRIFFMsg

/-- The WavHeader struct of the source. NumSamples is a Go int computed from
two unsigned fields, hence non-negative and modelled as Nat; DataMarkerOffset
is stored by the caller before setupWithHeaderData runs. -/
structure WavHeader where
  AudioFormat : Nat
  NumChannels : Nat
  SampleRate : Nat
  ByteRate : Nat
  BlockAlign : Nat
  BitsPerSample : Nat
  ChunkSize : Nat
  NumSamples : Nat
  DataMarkerOffset : Nat
deriving DecidableEq, Repr

/-- The field-decoding tail of setupWithHeaderData (split out of the source
function for proof convenience, semantics unchanged): decode the fixed-offset
fields, decode the chunk size right after the data marker, and compute
NumSamples = int(ChunkSize) / int(BlockAlign); the division panics in Go when
BlockAlign is zero. -/
def setupFields (header : List Nat) (dataMarkerOffset : Nat) : GoResult WavHeader :=
  (bLEtoUint16 header AudioFormatOffset).bind fun audioFormat =>
  (bLEtoUint16 header NumChannelsOffset).bind fun numChannels =>
  (bLEtoUint32 header SampleRateOffset).bind fun sampleRate =>
  (bLEtoUint32 header ByteRateOffset).bind fun byteRate =>
  (bLEtoUint16 header BlockAlignOffset).bind fun blockAlign =>
  (bLEtoUint16 header BitsPerSampleOffset).bind fun bitsPerSample =>
  (bLEtoUint32 header (dataMarkerOffset + 4)).bind fun chunkSize =>
  if blockAlign = 0 then .panic "runtime error: integer divide by zero"
  else .ok { AudioFormat := audioFormat, NumChannels := numChannels,
             SampleRate := sampleRate, ByteRate := byteRate,
             BlockAlign := blockAlign, BitsPerSample := bitsPerSample,
             ChunkSize := chunkSize, NumSamples := chunkSize / blockAlign,
             DataMarkerOffset := dataMarkerOffset }

/-- setupWithHeaderData from the source: validate the markers with the stored
DataMarkerOffset, then decode the header fields. Only the marker checks use
slice expressions, so only they see the spare capacity extra; the field reads
are index expressions, which Go bounds by the length. -/
def setupWithHeaderData (header : List Nat) (extra : Nat) (dataMarkerOffset : Nat) :
    GoResult WavHeader :=
  (checkHeader header extra dataMarkerOffset).bind fun _ =>
  setupFields header dataMarkerOffset

/-- One channel slot of readSampleFromData: the body of the loop over
channelIdx. For 8 bits per sample the byte at offset
sampleIndex*NumChannels+channelIdx, unsigned; for 16 bits the little-endian
signed pair at offset 2*sampleIndex*NumChannels+channelIdx (as written in the
source, the channel index is NOT inside the doubled product); any other depth
leaves the default value 0 from make([]int, NumChannels). -/
def readOneChannel (data : List Nat) (sampleIndex : Nat) (header : WavHeader)
    (channelIdx : Nat) : GoResult Int :=
  if header.BitsPerSample = 8 then
    (goIdx data (sampleIndex * header.NumChannels + channelIdx)).bind fun b =>
    .ok (b : Int)
  else if header.BitsPerSample = 16 then
    bLEtoInt16 data (2 * sampleIndex * header.NumChannels + channelIdx)
  else .ok 0

/-- The loop of readSampleFromData over channelIdx, with remaining iterations
counted down. -/
def readChannelsAux (data : List Nat) (sampleIndex : Nat) (header : WavHeader)
    (channelIdx remaining : Nat) : GoResult (List Int) :=
  match remaining with
  | 0 => .ok []
  | r + 1 =>
    (readOneChannel data sampleIndex header channelIdx).bind fun v =>
    (readChannelsAux data sampleIndex header (channelIdx + 1) r).bind fun rest =>
    .ok (v :: rest)

/-- readSampleFromData from the source: one frame laid out by channel. -/
def readSampleFromData (data : List Nat) (sampleIndex : Nat) (header : WavHeader) :
    GoResult (List Int) :=
  readChannelsAux data sampleIndex header 0 header.NumChannels

/-- The per-frame decode loop of ReadWav and ReadSamples, frames start,
start+1, ..., start+count-1 in order. -/
def decodeFramesAux (data : List Nat) (header : WavHeader) (start count : Nat) :
    GoResult (List (List Int)) :=
  match count with
  | 0 => .ok []
  | c + 1 =>
    (readSampleFromData data start header).bind fun s =>
    (decodeFramesAux data header (start + 1) c).bind fun rest =>
    .ok (s :: rest)

/-- Frames 0 .. count-1 decoded from data. -/
def decodeFrames (data : List Nat) (header : WavHeader) (count : Nat) :
    GoResult (List (List Int)) :=
  decodeFramesAux data header 0 count

/-- The Wav struct of the source. Data8 / Data16 are nil unless the matching
branch populates them, modelled as Option; Data always has NumSamples entries,
each a nil slice (empty list) unless a branch filled it. -/
structure Wav where
  header : WavHeader
  Data8 : Option (List (List Nat))
  Data16 : Option (List (List Int))
  Data : List (List Int)
deriving DecidableEq, Repr

/-- The part of ReadWav after the header has been set up: slice out
bytes[offset+8 : chunkSize+offset+8] (a slice expression, valid up to the
capacity of the ReadAll buffer; a chunk end past the length but within
capacity yields the zeroed spare region, and only a chunk end past the
capacity panics), then run the per-depth decode branches. In the 8 and 16 bit
branches every Data entry is assigned, so the resulting Data is exactly the
list of decoded frames and Data8 / Data16 hold the narrowed copies; in the
remaining branch nothing is assigned and the entries of
make([][]int, NumSamples) stay nil. -/
def decodeWithHeader (bytes : List Nat) (extra : Nat) (offset : Nat) (h : WavHeader) :
    GoResult Wav :=
  (goSliceCap bytes extra (offset + 8) (h.ChunkSize + offset + 8)).bind fun data =>
  if h.BitsPerSample = 8 then
    (decodeFrames data h h.NumSamples).bind fun samples =>
    .ok { header := h, Data8 := some (samples.map fun s => s.map toGoUint8),
          Data16 := none, Data := samples }
  else if h.BitsPerSample = 16 then
    (decodeFrames data h h.NumSamples).bind fun samples =>
    .ok { header := h, Data8 := none,
          Data16 := some (samples.map fun s => s.map toGoInt16), Data := samples }
  else
    .ok { header := h, Data8 := none, Data16 := none,
          Data := List.replicate h.NumSamples [] }

/-- ReadWav from the source, on the byte buffer delivered by ioutil.ReadAll.
The extra argument is the spare capacity of that buffer: ReadAll builds it
from make([]byte, 0, 512), so length + extra is at least 512 (for inputs
under 512 bytes read in one shot it is exactly 512), and the spare region
holds zeros. -/
def ReadWav (bytes : List Nat) (extra : Nat) : GoResult Wav :=
  match getDataMarkerOffset bytes with
  | none => .error errNotFoundMsg
  | some dataMarkerOffset =>
    (setupWithHeaderData bytes extra dataMarkerOffset).bind fun h =>
    decodeWithHeader bytes extra dataMarkerOffset h

/-- strings.Contains(b, data) on the accumulated bytes. -/
def containsDataB (b : List Nat) : Bool :=
  (List.range b.length).any fun i => decide ((b.drop i).take 4 = asciiData)

/-- The byte-at-a-time scan loop of StreamWav: before each single-byte read
the accumulated string is tested for the substring data; the loop also ends
(via break) when a read fails because the stream is exhausted. The returned
value is headerdataoffset, the number of bytes consumed. (The source tests
the substring before attempting the read; since both loop exits yield the
byte count consumed so far, testing the exhausted stream first returns the
same value and keeps the recursion structural.) -/
def scanLoop (consumed rest : List Nat) : Nat :=
  match rest with
  | [] => consumed.length
  | b :: rest2 =>
    if containsDataB consumed then consumed.length
    else scanLoop (consumed ++ [b]) rest2

/-- One Read call on the modelled stream (bytes.Reader semantics): an
exhausted stream reports EOF, otherwise up to n bytes are delivered. -/
def goRead (remaining : List Nat) (n : Nat) : GoResult (List Nat) :=
  if remaining.isEmpty then .error "EOF" else .ok (remaining.take n)

/-- The StreamedWav struct of the source: the header plus the not yet
consumed part of the stream it owns. -/
structure StreamedWav where
  header : WavHeader
  rest : List Nat
deriving DecidableEq, Repr

/-- StreamWav from the source: scan the stream byte by byte for data, then
read a block of headerdataoffset+8 bytes into a zero-initialised buffer
(a short Read leaves the tail zeroed) and validate it with the zero-valued
DataMarkerOffset of the freshly allocated StreamedWav. The block comes from
make([]byte, headerdataoffset+8), whose capacity equals its length, so its
spare capacity is 0. -/
def StreamWav (stream : List Nat) : GoResult StreamedWav :=
  let headerdataoffset := scanLoop [] stream
  let remaining := stream.drop headerdataoffset
  (goRead remaining (headerdataoffset + 8)).bind fun readBytes =>
  let header := readBytes ++ List.replicate (headerdataoffset + 8 - readBytes.length) 0
  (setupWithHeaderData header 0 0).bind fun h =>
  .ok { header := h, rest := remaining.drop readBytes.length }

/-- ReadSamples from the source, with the single underlying Read call
abstracted by its outcome: readErr is the error it returned (checked first,
its data discarded), readBytes are the bytes it delivered into the
zero-initialised buffer of numSamples*BlockAlign bytes. Taking amountRead %
BlockAlign panics in Go when BlockAlign is zero; on a misaligned count the
misaligned-read error is returned; otherwise amountRead / BlockAlign frames
are decoded from the buffer. -/
def ReadSamples (h : WavHeader) (numSamples : Nat) (readBytes : List Nat)
    (readErr : Option String) : GoResult (List (List Int)) :=
  match readErr with
  | some e => .error e
  | none =>
    let data := readBytes ++ List.replicate (numSamples * h.BlockAlign - readBytes.length) 0
    if h.BlockAlign = 0 then .panic "runtime error: integer divide by zero"
    else if readBytes.length % h.BlockAlign ≠ 0 then .error errMisalignedMsg
    else decodeFrames data h (readBytes.length / h.BlockAlign)

/-- Effectful map used to embed the element loops of GetMonoData. -/
def goMapM {α β : Type} (f : α → GoResult β) : List α → GoResult (List β)
  | [] => .ok []
  | a :: l => (f a).bind fun b => (goMapM f l).bind fun bs => .ok (b :: bs)

/-- GetMonoData from the source. Go computes in float64; on the integer
sample values this package decodes (magnitude far below 2^53) the int-to-float
conversions, the two-element sum, and the division by 2.0 are all exact in
binary64, so the reals are modelled by Rat. Indexing val[0] / val[1] panics in
Go on a frame with too few channel slots. -/
def GetMonoData (w : Wav) : GoResult (List Rat) :=
  if w.header.NumChannels = 1 then
    goMapM (fun val => (goIdx val 0).bind fun v => .ok ((v : Int) : Rat)) w.Data
  else
    goMapM (fun val =>
      (goIdx val 0).bind fun a =>
      (goIdx val 1).bind fun b =>
      .ok (((a + b : Int) : Rat) / 2)) w.Data

/-- The concrete 48-byte buffer of the spec scenario: RIFF????WAVEfmt ,
the canonical fmt sub-chunk (size 16, audio-format 1, channels 1, sample-rate
44100, byte-rate 88200, block-align 2, bits-per-sample 16), then data, chunk
size 4, and the two little-endian int16 samples 100 and -100. -/
def c9buf : List Nat :=
  [82, 73, 70, 70, 63, 63, 63, 63, 87, 65, 86, 69, 102, 109, 116, 32,
   16, 0, 0, 0, 1, 0, 1, 0, 68, 172, 0, 0, 136, 88, 1, 0, 2, 0, 16, 0,
   100, 97, 116, 97, 4, 0, 0, 0, 100, 0, 156, 255]

/-- The header that c9buf decodes to. -/
def c9hdr : WavHeader :=
  { AudioFormat := 1, NumChannels := 1, SampleRate := 44100, ByteRate := 88200,
    BlockAlign := 2, BitsPerSample := 16, ChunkSize := 4, NumSamples := 2,
    DataMarkerOffset := 36 }

/-- The container that c9buf decodes to. -/
def c9wav : Wav :=
  { header := c9hdr, Data8 := none, Data16 := some [[100], [-100]],
    Data := [[100], [-100]] }

/-- A buffer passing all header checks whose bits-per-sample field is 32:
channels 1, block-align 4, chunk size 4, one frame of payload. -/
def c3buf : List Nat :=
  [82, 73, 70, 70, 0, 0, 0, 0, 87, 65, 86, 69, 102, 109, 116, 32,
   0, 0, 0, 0, 1, 0, 1, 0, 0, 0, 0, 0, 0, 0, 0, 0, 4, 0, 32, 0,
   100, 97, 116, 97, 4, 0, 0, 0, 1, 2, 3, 4]

/-- The header that c3buf decodes to. -/
def c3hdr : WavHeader :=
  { AudioFormat := 1, NumChannels := 1, SampleRate := 0, ByteRate := 0,
    BlockAlign := 4, BitsPerSample := 32, ChunkSize := 4, NumSamples := 1,
    DataMarkerOffset := 36 }

/-- The container that c3buf decodes to: no error, no depth-specific data,
and a generic representation whose single frame entry is the nil slice. -/
def c3wav : Wav :=
  { header := c3hdr, Data8 := none, Data16 := none, Data := [[]] }

/-- A buffer passing all header checks whose block-align field is zero. -/
def c4bufA : List Nat :=
  [82, 73, 70, 70, 0, 0, 0, 0, 87, 65, 86, 69, 102, 109, 116, 32,
   0, 0, 0, 0, 0, 0, 0, 0, 0, 0, 0, 0, 0, 0, 0, 0, 0, 0, 0, 0,
   100, 97, 116, 97, 0, 0, 0, 0]

/-- A 44-byte buffer passing all header checks whose declared chunk size
(100) exceeds the bytes remaining in the buffer but keeps the chunk end
(144) within the 512-byte ReadAll capacity: the payload slice succeeds and
exposes the zeroed spare region. -/
def c4bufB : List Nat :=
  [82, 73, 70, 70, 0, 0, 0, 0, 87, 65, 86, 69, 102, 109, 116, 32,
   0, 0, 0, 0, 0, 0, 0, 0, 0, 0, 0, 0, 0, 0, 0, 0, 2, 0, 16, 0,
   100, 97, 116, 97, 100, 0, 0, 0]

/-- The container c4bufB decodes to: its channel-count field is zero, so the
50 frames obtained from the zero-padded payload are all empty. -/
def c4wavB : Wav :=
  { header := { AudioFormat := 0, NumChannels := 0, SampleRate := 0, ByteRate := 0,
                BlockAlign := 2, BitsPerSample := 16, ChunkSize := 100, NumSamples := 50,
                DataMarkerOffset := 36 },
    Data8 := none, Data16 := some (List.replicate 50 []),
    Data := List.replicate 50 [] }

/-- A 44-byte buffer passing all header checks whose declared chunk size
(512) puts the chunk end (556) past the 512-byte ReadAll capacity, so the
payload slice expression is out of range. -/
def c4bufC : List Nat :=
  [82, 73, 70, 70, 0, 0, 0, 0, 87, 65, 86, 69, 102, 109, 116, 32,
   0, 0, 0, 0, 0, 0, 0, 0, 0, 0, 0, 0, 0, 0, 0, 0, 2, 0, 16, 0,
   100, 97, 116, 97, 0, 2, 0, 0]

/-- A stream whose first four bytes are data, followed by RIFF????WAVE: the
byte-at-a-time scan stops after 4 bytes, so the re-read block is only 12
bytes long and the fmt check slices past its end. -/
def c2stream : List Nat :=
  [100, 97, 116, 97, 82, 73, 70, 70, 63, 63, 63, 63, 87, 65, 86, 69]

/-- A 16-bit 2-channel header as ReadWav would build it for a stereo file. -/
def c1hdr : WavHeader :=
  { AudioFormat := 1, NumChannels := 2, SampleRate := 44100, ByteRate := 176400,
    BlockAlign := 4, BitsPerSample := 16, ChunkSize := 4, NumSamples := 1,
    DataMarkerOffset := 36 }

/-- A 16-bit mono header (block alignment 2). -/
def c5hdr : WavHeader :=
  { AudioFormat := 1, NumChannels := 1, SampleRate := 44100, ByteRate := 88200,
    BlockAlign := 2, BitsPerSample := 16, ChunkSize := 0, NumSamples := 0,
    DataMarkerOffset := 0 }

/-- A minimal 20-byte buffer whose data marker sits at offset 16. -/
def c6hdrbuf : List Nat :=
  [82, 73, 70, 70, 0, 0, 0, 0, 87, 65, 86, 69, 102, 109, 116, 32,
   100, 97, 116, 97]

/-- A decoded 2-channel container with two frames. -/
def c10wav : Wav :=
  { header := { AudioFormat := 1, NumChannels := 2, SampleRate := 8000,
                ByteRate := 32000, BlockAlign := 4, BitsPerSample := 16,
                ChunkSize := 8, NumSamples := 2, DataMarkerOffset := 36 },
    Data8 := none, Data16 := some [[10, 20], [3, 4]], Data := [[10, 20], [3, 4]] }

/-- An arbitrary StreamedWav value, used to instantiate the statement that
StreamWav never returns one. -/
def someStreamedWav : StreamedWav :=
  { header := { AudioFormat := 0, NumChannels := 0, SampleRate := 0, ByteRate := 0,
                BlockAlign := 0, BitsPerSample := 0, ChunkSize := 0, NumSamples := 0,
                DataMarkerOffset := 0 },
    rest := [] }

/-- A GoResult that is not a returned error (it may be a value or a panic). -/
def GoResult.NoErr {α : Type} (r : GoResult α) : Prop := ∀ s, r ≠ .error s

/- ------------------------------------------------------------------ -/
/- Theorems.                                                           -/
/- ------------------------------------------------------------------ -/

@[simp] theorem GoResult.bind_ok {α β : Type} (a : α) (f : α → GoResult β) :
    (GoResult.ok a).bind f = f a := rfl

@[simp] theorem GoResult.bind_error {α β : Type} (s : String) (f : α → GoResult β) :
    (GoResult.error s : GoResult α).bind f = .error s := rfl

@[simp] theorem GoResult.bind_panic {α β : Type} (s : String) (f : α → GoResult β) :
    (GoResult.panic s : GoResult α).bind f = .panic s := rfl

theorem GoResult.bind_eq_ok {α β : Type} {x : GoResult α} {f : α → GoResult β} {b : β}
    (h : x.bind f = .ok b) : ∃ a, x = .ok a ∧ f a = .ok b := by
  cases x with
  | ok a => exact ⟨a, rfl, h⟩
  | error s => simp at h
  | panic s => simp at h

theorem GoResult.bind_eq_error {α β : Type} {x : GoResult α} {f : α → GoResult β} {s : String}
    (h : x.bind f = .error s) : x = .error s ∨ ∃ a, x = .ok a ∧ f a = .error s := by
  cases x with
  | ok a => exact Or.inr ⟨a, rfl, h⟩
  | error t => simp at h; exact Or.inl (by rw [h])
  | panic t => simp at h

theorem GoResult.noErr_ok {α : Type} (a : α) : (GoResult.ok a).NoErr :=
  fun _ h => GoResult.noConfusion h

theorem GoResult.noErr_panic {α : Type} (p : String) : (GoResult.panic p : GoResult α).NoErr :=
  fun _ h => GoResult.noConfusion h

theorem GoResult.noErr_bind {α β : Type} {x : GoResult α} {f : α → GoResult β}
    (hx : x.NoErr) (hf : ∀ a, (f a).NoErr) : (x.bind f).NoErr := by
  cases x with
  | ok a => exact hf a
  | error s => exact absurd rfl (hx s)
  | panic s => exact GoResult.noErr_panic s

theorem goIdx_noErr {α : Type} (l : List α) (i : Nat) : (goIdx l i).NoErr := by
  unfold goIdx
  cases l[i]? with
  | none => exact GoResult.noErr_panic _
  | some v => exact GoResult.noErr_ok _

theorem goIdx_eq_ok {α : Type} (l : List α) (i : Nat) (d : α) (h : i < l.length) :
    goIdx l i = .ok (l.getD i d) := by
  unfold goIdx
  rw [List.getElem?_eq_getElem h, List.getD_eq_getElem l d h]

theorem goSliceCap_cases (b : List Nat) (extra lo hi : Nat) :
    (∃ l, goSliceCap b extra lo hi = .ok l) ∨
    goSliceCap b extra lo hi = .panic "runtime error: slice bounds out of range" := by
  unfold goSliceCap
  split_ifs
  · exact Or.inl ⟨_, rfl⟩
  · exact Or.inr rfl

theorem goSliceCap_noErr (b : List Nat) (extra lo hi : Nat) :
    (goSliceCap b extra lo hi).NoErr := by
  rcases goSliceCap_cases b extra lo hi with ⟨l, e⟩ | e <;> rw [e]
  · exact GoResult.noErr_ok _
  · exact GoResult.noErr_panic _

theorem goSliceCap_eq_of_le (b : List Nat) (extra lo hi : Nat)
    (h1 : lo ≤ hi) (h2 : hi ≤ b.length) :
    goSliceCap b extra lo hi = .ok ((b.drop lo).take (hi - lo)) := by
  unfold goSliceCap
  rw [if_pos ⟨h1, by omega⟩,
      List.drop_append_of_le_length (by omega),
      List.take_append_of_le_length (by rw [List.length_drop]; omega)]

theorem bLEtoUint32_noErr (b : List Nat) (idx : Nat) : (bLEtoUint32 b idx).NoErr :=
  GoResult.noErr_bind (goIdx_noErr _ _) fun _ =>
  GoResult.noErr_bind (goIdx_noErr _ _) fun _ =>
  GoResult.noErr_bind (goIdx_noErr _ _) fun _ =>
  GoResult.noErr_bind (goIdx_noErr _ _) fun _ => GoResult.noErr_ok _

theorem bLEtoUint16_noErr (b : List Nat) (idx : Nat) : (bLEtoUint16 b idx).NoErr :=
  GoResult.noErr_bind (goIdx_noErr _ _) fun _ =>
  GoResult.noErr_bind (goIdx_noErr _ _) fun _ => GoResult.noErr_ok _

theorem bLEtoInt16_noErr (b : List Nat) (idx : Nat) : (bLEtoInt16 b idx).NoErr :=
  GoResult.noErr_bind (goIdx_noErr _ _) fun _ =>
  GoResult.noErr_bind (goIdx_noErr _ _) fun _ => GoResult.noErr_ok _

theorem readOneChannel_noErr (data : List Nat) (i : Nat) (h : WavHeader) (c : Nat) :
    (readOneChannel data i h c).NoErr := by
  unfold readOneChannel
  split_ifs
  · exact GoResult.noErr_bind (goIdx_noErr _ _) fun _ => GoResult.noErr_ok _
  · exact bLEtoInt16_noErr _ _
  · exact GoResult.noErr_ok _

theorem readChannelsAux_noErr (data : List Nat) (i : Nat) (h : WavHeader) :
    ∀ r c, (readChannelsAux data i h c r).NoErr := by
  intro r
  induction r with
  | zero => intro c; exact GoResult.noErr_ok _
  | succ r ih =>
    intro c
    exact GoResult.noErr_bind (readOneChannel_noErr _ _ _ _) fun v =>
      GoResult.noErr_bind (ih (c + 1)) fun rest => GoResult.noErr_ok _

theorem readSampleFromData_noErr (data : List Nat) (i : Nat) (h : WavHeader) :
    (readSampleFromData data i h).NoErr :=
  readChannelsAux_noErr data i h h.NumChannels 0

theorem decodeFramesAux_noErr (data : List Nat) (h : WavHeader) :
    ∀ count start, (decodeFramesAux data h start count).NoErr := by
  intro count
  induction count with
  | zero => intro start; exact GoResult.noErr_ok _
  | succ c ih =>
    intro start
    exact GoResult.noErr_bind (readSampleFromData_noErr _ _ _) fun s =>
      GoResult.noErr_bind (ih (start + 1)) fun rest => GoResult.noErr_ok _

theorem decodeWithHeader_noErr (bytes : List Nat) (extra off : Nat) (h : WavHeader) :
    (decodeWithHeader bytes extra off h).NoErr := by
  unfold decodeWithHeader
  refine GoResult.noErr_bind (goSliceCap_noErr _ _ _ _) fun data => ?_
  split_ifs
  · exact GoResult.noErr_bind (decodeFramesAux_noErr _ _ _ _) fun s => GoResult.noErr_ok _
  · exact GoResult.noErr_bind (decodeFramesAux_noErr _ _ _ _) fun s => GoResult.noErr_ok _
  · exact GoResult.noErr_ok _

theorem setupFields_noErr (header : List Nat) (off : Nat) : (setupFields header off).NoErr := by
  unfold setupFields
  refine GoResult.noErr_bind (bLEtoUint16_noErr _ _) fun _ => ?_
  refine GoResult.noErr_bind (bLEtoUint16_noErr _ _) fun _ => ?_
  refine GoResult.noErr_bind (bLEtoUint32_noErr _ _) fun _ => ?_
  refine GoResult.noErr_bind (bLEtoUint32_noErr _ _) fun _ => ?_
  refine GoResult.noErr_bind (bLEtoUint16_noErr _ _) fun _ => ?_
  refine GoResult.noErr_bind (bLEtoUint16_noErr _ _) fun _ => ?_
  refine GoResult.noErr_bind (bLEtoUint32_noErr _ _) fun _ => ?_
  split_ifs
  · exact GoResult.noErr_panic _
  · exact GoResult.noErr_ok _

theorem setupFields_ok_inversion (header : List Nat) (off : Nat) (h : WavHeader)
    (hs : setupFields header off = .ok h) :
    h.DataMarkerOffset = off ∧ h.BlockAlign ≠ 0 ∧
    h.NumSamples = h.ChunkSize / h.BlockAlign := by
  unfold setupFields at hs
  rcases GoResult.bind_eq_ok hs with ⟨af, haf, hs⟩
  rcases GoResult.bind_eq_ok hs with ⟨nc, hnc, hs⟩
  rcases GoResult.bind_eq_ok hs with ⟨sr, hsr, hs⟩
  rcases GoResult.bind_eq_ok hs with ⟨br, hbr, hs⟩
  rcases GoResult.bind_eq_ok hs with ⟨ba, hba, hs⟩
  rcases GoResult.bind_eq_ok hs with ⟨bps, hbps, hs⟩
  rcases GoResult.bind_eq_ok hs with ⟨cs, hcs, hs⟩
  split_ifs at hs with hz
  simp only [GoResult.ok.injEq] at hs
  subst hs
  exact ⟨rfl, hz, rfl⟩

theorem setup_ok_inversion (header : List Nat) (extra off : Nat) (h : WavHeader)
    (hs : setupWithHeaderData header extra off = .ok h) :
    checkHeader header extra off = .ok () ∧
    h.DataMarkerOffset = off ∧ h.BlockAlign ≠ 0 ∧
    h.NumSamples = h.ChunkSize / h.BlockAlign := by
  unfold setupWithHeaderData at hs
  rcases GoResult.bind_eq_ok hs with ⟨u, hch, hs⟩
  cases u
  exact ⟨hch, setupFields_ok_inversion header off h hs⟩

theorem setup_error_eq (header : List Nat) (extra off : Nat) (s : String)
    (h : setupWithHeaderData header extra off = .error s) :
    checkHeader header extra off = .error s := by
  unfold setupWithHeaderData at h
  rcases GoResult.bind_eq_error h with hch | ⟨u, hu, h2⟩
  · exact hch
  · exact absurd h2 (setupFields_noErr header off s)

theorem checkHeader_error_mem (header : List Nat) (extra off : Nat) (s : String)
    (h : checkHeader header extra off = .error s) :
    s = errRIFFMsg ∨ s = errWAVEMsg ∨ s = errFmtMsg ∨ s = errDataMsg := by
  unfold checkHeader at h
  rcases goSliceCap_cases header extra 0 4 with ⟨l1, e1⟩ | e1 <;>
  rcases goSliceCap_cases header extra 8 12 with ⟨l2, e2⟩ | e2 <;>
  rcases goSliceCap_cases header extra 12 16 with ⟨l3, e3⟩ | e3 <;>
  rcases goSliceCap_cases header extra off (off + 4) with ⟨l4, e4⟩ | e4 <;>
  simp only [e1, e2, e3, e4, GoResult.bind_ok, GoResult.bind_panic] at h <;>
  first
  | (split_ifs at h <;> simp_all)
  | simp_all

theorem checkHeader_zero_ne_ok (header : List Nat) (extra : Nat) :
    checkHeader header extra 0 ≠ .ok () := by
  intro h
  unfold checkHeader at h
  rcases goSliceCap_cases header extra 0 4 with ⟨l1, e1⟩ | e1 <;>
  rcases goSliceCap_cases header extra 8 12 with ⟨l2, e2⟩ | e2 <;>
  rcases goSliceCap_cases header extra 12 16 with ⟨l3, e3⟩ | e3 <;>
  simp only [Nat.zero_add, e1, e2, e3, GoResult.bind_ok, GoResult.bind_panic] at h <;>
  first
  | (split_ifs at h <;> simp_all [asciiRIFF, asciiWAVE, asciiFmt, asciiData])
  | simp_all

theorem dataAt_le_length {b : List Nat} {i : Nat} (h : dataAt b i) : i + 4 ≤ b.length := by
  have hlen : ((b.drop i).take 4).length = 4 := by rw [h]; rfl
  rw [List.length_take, List.length_drop] at hlen
  omega

theorem findDataAux_some_spec (b : List Nat) :
    ∀ fuel i j, findDataAux b i fuel = some j →
      dataAt b j ∧ i ≤ j ∧ ∀ k, i ≤ k → k < j → ¬ dataAt b k := by
  intro fuel
  induction fuel with
  | zero => intro i j h; simp [findDataAux] at h
  | succ f ih =>
    intro i j h
    unfold findDataAux at h
    split_ifs at h with hd
    · simp only [Option.some.injEq] at h
      subst h
      exact ⟨hd, Nat.le_refl i, fun k hk1 hk2 => absurd hk2 (by omega)⟩
    · obtain ⟨hda, hij, hfirst⟩ := ih (i + 1) j h
      refine ⟨hda, by omega, fun k hk1 hk2 => ?_⟩
      rcases Nat.eq_or_lt_of_le hk1 with rfl | hk
      · exact hd
      · exact hfirst k hk hk2

theorem findDataAux_none_spec (b : List Nat) :
    ∀ fuel i, findDataAux b i fuel = none → ∀ k, i ≤ k → k < i + fuel → ¬ dataAt b k := by
  intro fuel
  induction fuel with
  | zero => intro i _ k hk1 hk2; exact absurd hk2 (by omega)
  | succ f ih =>
    intro i h k hk1 hk2
    unfold findDataAux at h
    split_ifs at h with hd
    rcases Nat.eq_or_lt_of_le hk1 with rfl | hk
    · exact hd
    · exact ih (i + 1) h k hk (by omega)

theorem getDataMarkerOffset_some_spec (b : List Nat) (i : Nat)
    (h : getDataMarkerOffset b = some i) :
    dataAt b i ∧ ∀ j, j < i → ¬ dataAt b j := by
  obtain ⟨hd, -, hfirst⟩ := findDataAux_some_spec b b.length 0 i h
  exact ⟨hd, fun j hj => hfirst j (Nat.zero_le j) hj⟩

theorem getDataMarkerOffset_none_iff (b : List Nat) :
    getDataMarkerOffset b = none ↔ ∀ i, ¬ dataAt b i := by
  constructor
  · intro h i hd
    have h4 := dataAt_le_length hd
    exact findDataAux_none_spec b b.length 0 h i (Nat.zero_le i) (by omega) hd
  · intro h
    cases hv : getDataMarkerOffset b with
    | none => rfl
    | some j => exact absurd (getDataMarkerOffset_some_spec b j hv).1 (h j)

theorem decodeWithHeader_ok_header (bytes : List Nat) (extra off : Nat) (h : WavHeader)
    (w : Wav) (hd : decodeWithHeader bytes extra off h = .ok w) : w.header = h := by
  unfold decodeWithHeader at hd
  rcases GoResult.bind_eq_ok hd with ⟨data, hdata, hd⟩
  split_ifs at hd
  · rcases GoResult.bind_eq_ok hd with ⟨samples, hsamp, hd⟩
    simp only [GoResult.ok.injEq] at hd
    subst hd
    rfl
  · rcases GoResult.bind_eq_ok hd with ⟨samples, hsamp, hd⟩
    simp only [GoResult.ok.injEq] at hd
    subst hd
    rfl
  · simp only [GoResult.ok.injEq] at hd
    subst hd
    rfl

theorem ReadWav_ok_inversion (bytes : List Nat) (extra : Nat) (w : Wav)
    (hw : ReadWav bytes extra = .ok w) :
    ∃ off h, getDataMarkerOffset bytes = some off ∧
      setupWithHeaderData bytes extra off = .ok h ∧ w.header = h := by
  cases hoff : getDataMarkerOffset bytes with
  | none => simp [ReadWav, hoff] at hw
  | some off =>
    simp only [ReadWav, hoff] at hw
    rcases GoResult.bind_eq_ok hw with ⟨h, hsetup, hdec⟩
    exact ⟨off, h, rfl, hsetup, decodeWithHeader_ok_header bytes extra off h w hdec⟩

theorem goIdx_exists_ok {α : Type} (l : List α) (i : Nat) (h : i < l.length) :
    ∃ v, goIdx l i = .ok v := by
  refine ⟨l[i], ?_⟩
  unfold goIdx
  rw [List.getElem?_eq_getElem h]

theorem bLEtoInt16_exists_ok (b : List Nat) (idx : Nat) (h : idx + 1 < b.length) :
    ∃ v, bLEtoInt16 b idx = .ok v := by
  obtain ⟨v1, e1⟩ := goIdx_exists_ok b (idx + 1) h
  obtain ⟨v0, e0⟩ := goIdx_exists_ok b idx (by omega)
  refine ⟨toGoInt16 (toGoInt16 ((v1 : Int) * 256) + (v0 : Int)), ?_⟩
  unfold bLEtoInt16
  rw [e1, GoResult.bind_ok, e0, GoResult.bind_ok]

theorem readOneChannel_exists_ok (data : List Nat) (i : Nat) (h : WavHeader) (c : Nat)
    (h8 : h.BitsPerSample = 8 → i * h.NumChannels + c < data.length)
    (h16 : h.BitsPerSample = 16 → 2 * i * h.NumChannels + c + 1 < data.length) :
    ∃ v, readOneChannel data i h c = .ok v := by
  unfold readOneChannel
  split_ifs with hb8 hb16
  · obtain ⟨v, e⟩ := goIdx_exists_ok data (i * h.NumChannels + c) (h8 hb8)
    refine ⟨(v : Int), ?_⟩
    rw [e, GoResult.bind_ok]
  · exact bLEtoInt16_exists_ok data (2 * i * h.NumChannels + c) (h16 hb16)
  · exact ⟨0, rfl⟩

theorem readChannelsAux_len (data : List Nat) (i : Nat) (h : WavHeader) :
    ∀ r c, (∀ k, c ≤ k → k < c + r → ∃ v, readOneChannel data i h k = .ok v) →
      ∃ vs, readChannelsAux data i h c r = .ok vs ∧ vs.length = r := by
  intro r
  induction r with
  | zero => intro c _; exact ⟨[], rfl, rfl⟩
  | succ r ih =>
    intro c hok
    obtain ⟨v, hv⟩ := hok c (Nat.le_refl c) (by omega)
    obtain ⟨vs, hvs, hlen⟩ := ih (c + 1) fun k hk1 hk2 => hok k (by omega) (by omega)
    refine ⟨v :: vs, ?_, by simp [hlen]⟩
    simp only [readChannelsAux]
    rw [hv, GoResult.bind_ok, hvs, GoResult.bind_ok]

theorem readSampleFromData_len (data : List Nat) (i : Nat) (h : WavHeader)
    (hok : ∀ c, c < h.NumChannels → ∃ v, readOneChannel data i h c = .ok v) :
    ∃ s, readSampleFromData data i h = .ok s ∧ s.length = h.NumChannels :=
  readChannelsAux_len data i h h.NumChannels 0 fun k _ hk2 => hok k (by omega)

theorem decodeFramesAux_len (data : List Nat) (h : WavHeader) :
    ∀ count start,
      (∀ i, start ≤ i → i < start + count →
        ∃ s, readSampleFromData data i h = .ok s ∧ s.length = h.NumChannels) →
      ∃ frames, decodeFramesAux data h start count = .ok frames ∧
        frames.length = count ∧ ∀ f ∈ frames, f.length = h.NumChannels := by
  intro count
  induction count with
  | zero => intro start _; exact ⟨[], rfl, rfl, by simp⟩
  | succ c ih =>
    intro start hok
    obtain ⟨s, hs, hslen⟩ := hok start (Nat.le_refl start) (by omega)
    obtain ⟨frames, hf, hflen, hfch⟩ := ih (start + 1) fun i h1 h2 => hok i (by omega) (by omega)
    refine ⟨s :: frames, ?_, by simp [hflen], ?_⟩
    · simp only [decodeFramesAux]
      rw [hs, GoResult.bind_ok, hf, GoResult.bind_ok]
    · intro f hf2
      rcases List.mem_cons.mp hf2 with rfl | hf3
      · exact hslen
      · exact hfch f hf3

theorem goMapM_ok {α β : Type} (f : α → GoResult β) (g : α → β) :
    ∀ l : List α, (∀ a ∈ l, f a = .ok (g a)) → goMapM f l = .ok (l.map g) := by
  intro l
  induction l with
  | nil => intro _; rfl
  | cons a l ih =>
    intro h
    have ha := h a (List.mem_cons_self a l)
    have hl := ih fun x hx => h x (List.mem_cons_of_mem a hx)
    simp [goMapM, ha, hl]

/-- Claim C1 (refuted by the code, code bug): the per-frame decode rule is
specified to read the 16-bit value of channel c in frame i at payload byte
offset 2*(i*C + c), but readSampleFromData computes the offset as
2*i*C + c. On payload [0, 1, 2, 3] with 2 channels and 16 bits per sample,
channel 1 of frame 0 decodes from the overlapping little-endian pair at
offset 1 (value 513), while the pair at the specified offset 2 holds 770;
the streaming pull path decodes the same wrong value through the shared
routine. -/
theorem ReadSample16_offset_bug :
    readSampleFromData [0, 1, 2, 3] 0 c1hdr = GoResult.ok [256, 513] ∧
    bLEtoInt16 [0, 1, 2, 3] (2 * (0 * 2 + 1)) = GoResult.ok 770 ∧
    ReadSamples c1hdr 1 [0, 1, 2, 3] none = GoResult.ok [[256, 513]] ∧
    (513 : Int) ≠ 770 := by decide

/-- Claim C4 (amended): ReadWav terminates abnormally instead of returning an
error on buffers that pass data-marker location and header validation: with a
zero block-align field the frame-count division panics, and with a declared
chunk end past the capacity of the ReadAll buffer (its 44 bytes are backed by
the 512-byte allocation of ReadAll, spare capacity 468) the payload slice
expression is out of range; neither case is guarded. -/
theorem ReadWav_unguarded_panics :
    checkHeader c4bufA 468 36 = GoResult.ok () ∧
    ReadWav c4bufA 468 = GoResult.panic "runtime error: integer divide by zero" ∧
    checkHeader c4bufC 468 36 = GoResult.ok () ∧
    c4bufC.length + 468 = 512 ∧
    ReadWav c4bufC 468 = GoResult.panic "runtime error: slice bounds out of range" := by
  decide

/-- Claim C4, counterexample to the original slice trigger: on c4bufB the
declared chunk size 100 exceeds the 0 bytes remaining after the data
sub-chunk header of the 44-byte buffer, yet the chunk end 144 is within the
512-byte ReadAll capacity, so Go slicing (bounded by capacity) yields the
zeroed spare region and ReadWav returns 50 frames normally instead of
terminating abnormally. -/
theorem ReadWav_slice_within_capacity :
    checkHeader c4bufB 468 36 = GoResult.ok () ∧
    c4bufB.length = 44 ∧ c4bufB.length + 468 = 512 ∧
    ReadWav c4bufB 468 = GoResult.ok c4wavB ∧
    c4wavB.header.ChunkSize = 100 ∧ c4wavB.header.NumSamples = 50 := by
  decide

/-- Claim C9: the concrete spec scenario buffer (48 bytes, carried in the
512-byte ReadAll allocation, spare capacity 464) bulk-decodes to channel
count 1, sample rate 44100, frame count 2, and generic samples
[[100], [-100]]. -/
theorem concrete_scenario_decodes :
    ReadWav c9buf 464 = GoResult.ok c9wav ∧
    c9wav.header.NumChannels = 1 ∧ c9wav.header.SampleRate = 44100 ∧
    c9wav.header.NumSamples = 2 ∧ c9wav.Data = [[100], [-100]] := by decide

/-- Claim C2, counterexample to the universally quantified form: on the
stream whose bytes are dataRIFF????WAVE, StreamWav panics slicing past the
end of the 12-byte re-read block inside checkHeader, so it does not return a
nil container with a non-nil error there. -/
theorem StreamWav_panic_counterexample :
    StreamWav c2stream = GoResult.panic "runtime error: slice bounds out of range" := by
  decide

/-- Claim C3, counterexample: c3buf passes data-marker location and header
validation, has bits-per-sample 32, channel count 1 and frame count 1, and
bulk decode leaves the single generic frame entry as the empty (nil) slice
rather than one zero-valued channel slot. -/
theorem ReadWav_unsupported_depth_counterexample :
    ReadWav c3buf 464 = GoResult.ok c3wav ∧ c3wav.header.NumChannels = 1 ∧
    c3wav.header.NumSamples = 1 ∧ c3wav.Data = [[]] ∧
    c3wav.Data ≠ [[0]] := by decide

/-- Claim C2 (amended): StreamWav never returns a container: it validates the
re-read block with a data-marker offset of zero, so bytes [0,4) of that block
would have to equal both RIFF and data at once and the success branch is
unreachable; every call returns a non-nil error or, when the scan leaves too
short a block, panics in header validation. -/
theorem StreamWav_never_succeeds (stream : List Nat) (w : StreamedWav) :
    StreamWav stream ≠ GoResult.ok w := by
  intro h
  simp only [StreamWav] at h
  rcases GoResult.bind_eq_ok h with ⟨readBytes, hread, h⟩
  rcases GoResult.bind_eq_ok h with ⟨hd, hsetup, h2⟩
  obtain ⟨hch, -, -, -⟩ := setup_ok_inversion _ 0 0 hd hsetup
  exact checkHeader_zero_ne_ok _ 0 hch

/-- Claim C2, witness: the amended statement instantiated on the empty
stream. -/
theorem StreamWav_never_succeeds_witness : StreamWav [] ≠ GoResult.ok someStreamedWav :=
  StreamWav_never_succeeds [] someStreamedWav

/-- Claim C3 (amended): for every buffer that passes data-marker location and
header validation, whose payload slice is within bounds, and whose
bits-per-sample field is neither 8 nor 16, bulk decode returns without error,
the depth-specific representations stay unpopulated, and the generic
representation has frame-count entries each of which is the empty (nil)
slice: the per-frame decode loop is skipped entirely, so the entries hold no
channel-count zero slots. -/
theorem ReadWav_unsupported_depth (bytes : List Nat) (extra off : Nat) (h : WavHeader)
    (hoff : getDataMarkerOffset bytes = some off)
    (hsetup : setupWithHeaderData bytes extra off = .ok h)
    (h8 : h.BitsPerSample ≠ 8) (h16 : h.BitsPerSample ≠ 16)
    (hslice : h.ChunkSize + off + 8 ≤ bytes.length) :
    ReadWav bytes extra = GoResult.ok
      { header := h, Data8 := none, Data16 := none,
        Data := List.replicate h.NumSamples [] } := by
  simp only [ReadWav, hoff]
  rw [hsetup, GoResult.bind_ok]
  unfold decodeWithHeader
  rw [goSliceCap_eq_of_le bytes extra (off + 8) (h.ChunkSize + off + 8) (by omega) hslice,
      GoResult.bind_ok, if_neg h8, if_neg h16]

/-- Claim C3, witness: the amended statement instantiated on c3buf inside
its 512-byte ReadAll allocation. -/
theorem ReadWav_unsupported_depth_witness :
    ReadWav c3buf 464 = GoResult.ok
      { header := c3hdr, Data8 := none, Data16 := none,
        Data := List.replicate c3hdr.NumSamples [] } :=
  ReadWav_unsupported_depth c3buf 464 36 c3hdr (by decide) (by decide) (by decide)
    (by decide) (by decide)

/-- Claim C6: on a buffer long enough for the checks (at least 16 bytes, the
4 bytes at the marker offset in range), header validation succeeds iff bytes
[0,4) equal RIFF, bytes [8,12) equal WAVE, bytes [12,16) equal fmt-space, and
the 4 bytes at the supplied marker offset equal data; the first mismatch in
that order fails with the structural error naming that marker. -/
theorem checkHeader_spec (header : List Nat) (extra off : Nat)
    (hlen : 16 ≤ header.length) (hoff : off + 4 ≤ header.length) :
    (checkHeader header extra off = .ok () ↔
      (header.take 4 = asciiRIFF ∧ (header.drop 8).take 4 = asciiWAVE ∧
       (header.drop 12).take 4 = asciiFmt ∧ (header.drop off).take 4 = asciiData)) ∧
    (header.take 4 ≠ asciiRIFF → checkHeader header extra off = .error errRIFFMsg) ∧
    (header.take 4 = asciiRIFF → (header.drop 8).take 4 ≠ asciiWAVE →
      checkHeader header extra off = .error errWAVEMsg) ∧
    (header.take 4 = asciiRIFF → (header.drop 8).take 4 = asciiWAVE →
      (header.drop 12).take 4 ≠ asciiFmt →
      checkHeader header extra off = .error errFmtMsg) ∧
    (header.take 4 = asciiRIFF → (header.drop 8).take 4 = asciiWAVE →
      (header.drop 12).take 4 = asciiFmt → (header.drop off).take 4 ≠ asciiData →
      checkHeader header extra off = .error errDataMsg) := by
  have e1 : goSliceCap header extra 0 4 = .ok (header.take 4) := by
    rw [goSliceCap_eq_of_le header extra 0 4 (by omega) (by omega)]
    simp
  have e2 : goSliceCap header extra 8 12 = .ok ((header.drop 8).take 4) := by
    rw [goSliceCap_eq_of_le header extra 8 12 (by omega) (by omega)]
  have e3 : goSliceCap header extra 12 16 = .ok ((header.drop 12).take 4) := by
    rw [goSliceCap_eq_of_le header extra 12 16 (by omega) (by omega)]
  have e4 : goSliceCap header extra off (off + 4) = .ok ((header.drop off).take 4) := by
    rw [goSliceCap_eq_of_le header extra off (off + 4) (by omega) hoff]
    have hd : off + 4 - off = 4 := by omega
    rw [hd]
  simp only [checkHeader, e1, e2, e3, e4, GoResult.bind_ok]
  refine ⟨?_, ?_, ?_, ?_, ?_⟩
  · constructor
    · intro hok
      split_ifs at hok with h1 h2 h3 h4
      · exact ⟨h1, h2, h3, h4⟩
    · rintro ⟨h1, h2, h3, h4⟩
      rw [if_pos h1, if_pos h2, if_pos h3, if_pos h4]
  · intro h1
    rw [if_neg h1]
  · intro h1 h2
    rw [if_pos h1, if_neg h2]
  · intro h1 h2 h3
    rw [if_pos h1, if_pos h2, if_neg h3]
  · intro h1 h2 h3 h4
    rw [if_pos h1, if_pos h2, if_pos h3, if_neg h4]

/-- Claim C6, witness: the validation theorem instantiated on a concrete
20-byte header (spare capacity 492 inside its ReadAll allocation) whose data
marker sits at offset 16. -/
theorem checkHeader_spec_witness : checkHeader c6hdrbuf 492 16 = GoResult.ok () :=
  ((checkHeader_spec c6hdrbuf 492 16 (by decide) (by decide)).1).mpr (by decide)

/-- Claim C7: every header accepted by the validator and decoded by
setupWithHeaderData has frame count ChunkSize / BlockAlign by integer floor
division, hence frame count times block alignment is at most the chunk
size. -/
theorem frameCount_spec (header : List Nat) (extra off : Nat) (h : WavHeader)
    (hs : setupWithHeaderData header extra off = .ok h) :
    h.NumSamples = h.ChunkSize / h.BlockAlign ∧
    h.NumSamples * h.BlockAlign ≤ h.ChunkSize := by
  obtain ⟨-, -, -, hns⟩ := setup_ok_inversion header extra off h hs
  exact ⟨hns, by rw [hns]; exact Nat.div_mul_le_self _ _⟩

/-- Claim C7, witness: the frame-count theorem instantiated on the header of
the concrete scenario buffer. -/
theorem frameCount_spec_witness :
    c9hdr.NumSamples = c9hdr.ChunkSize / c9hdr.BlockAlign ∧
    c9hdr.NumSamples * c9hdr.BlockAlign ≤ c9hdr.ChunkSize :=
  frameCount_spec c9buf 464 36 c9hdr (by decide)

/-- Claim C8: bulk decode fails with the not-found error exactly when the
4-byte sequence data occurs nowhere in the buffer; when it does occur, the
located offset is that of the first occurrence, and a successful decode
records it as the DataMarkerOffset used for all subsequent parsing. -/
theorem dataMarker_spec (bytes : List Nat) (extra : Nat) :
    ((∀ i, ¬ dataAt bytes i) ↔ ReadWav bytes extra = .error errNotFoundMsg) ∧
    (∀ i, getDataMarkerOffset bytes = some i →
      dataAt bytes i ∧ (∀ j, j < i → ¬ dataAt bytes j) ∧
      ∀ w, ReadWav bytes extra = GoResult.ok w → w.header.DataMarkerOffset = i) := by
  constructor
  · constructor
    · intro hnone
      have hv : getDataMarkerOffset bytes = none :=
        (getDataMarkerOffset_none_iff bytes).mpr hnone
      simp [ReadWav, hv]
    · intro herr
      rw [← getDataMarkerOffset_none_iff]
      cases hv : getDataMarkerOffset bytes with
      | none => rfl
      | some j =>
        exfalso
        simp only [ReadWav, hv] at herr
        rcases GoResult.bind_eq_error herr with hsetup | ⟨a, ha, hdec⟩
        · have hch := setup_error_eq bytes extra j errNotFoundMsg hsetup
          rcases checkHeader_error_mem bytes extra j errNotFoundMsg hch with h | h | h | h <;>
            exact absurd h (by decide)
        · exact decodeWithHeader_noErr bytes extra j a errNotFoundMsg hdec
  · intro i hi
    obtain ⟨hd, hfirst⟩ := getDataMarkerOffset_some_spec bytes i hi
    refine ⟨hd, hfirst, fun w hw => ?_⟩
    obtain ⟨off, h, hoff, hsetup, hwh⟩ := ReadWav_ok_inversion bytes extra w hw
    rw [hoff] at hi
    simp only [Option.some.injEq] at hi
    obtain ⟨-, hdmo, -, -⟩ := setup_ok_inversion bytes extra off h hsetup
    rw [hwh, hdmo, hi]

/-- Claim C8, witness: on the concrete scenario buffer the marker is located
at offset 36 and not at offset 0. -/
theorem dataMarker_spec_witness : dataAt c9buf 36 ∧ ¬ dataAt c9buf 0 := by
  have h := (dataMarker_spec c9buf 464).2 36 (by decide)
  exact ⟨h.1, h.2.1 0 (by decide)⟩

/-- Claim C10: on a decoded container whose frames carry channel-count
values, GetMonoData returns one value per frame in the same order: for a
mono container the sole channel value of each frame, for a 2-channel
container with per-frame values (L, R) exactly (L+R)/2. -/
theorem GetMonoData_spec (w : Wav)
    (hch : ∀ f ∈ w.Data, f.length = w.header.NumChannels) :
    (w.header.NumChannels = 1 →
      GetMonoData w = GoResult.ok (w.Data.map fun f => ((f.getD 0 0 : Int) : Rat))) ∧
    (w.header.NumChannels = 2 →
      GetMonoData w = GoResult.ok
        (w.Data.map fun f => ((f.getD 0 0 + f.getD 1 0 : Int) : Rat) / 2)) := by
  constructor
  · intro h1
    unfold GetMonoData
    rw [if_pos h1]
    apply goMapM_ok
    intro f hf
    have hl : 0 < f.length := by rw [hch f hf, h1]; omega
    rw [goIdx_eq_ok f 0 0 hl, GoResult.bind_ok]
  · intro h2
    unfold GetMonoData
    rw [if_neg (by rw [h2]; omega : ¬ w.header.NumChannels = 1)]
    apply goMapM_ok
    intro f hf
    have hl : f.length = 2 := by rw [hch f hf, h2]
    rw [goIdx_eq_ok f 0 0 (by omega), GoResult.bind_ok,
        goIdx_eq_ok f 1 0 (by omega), GoResult.bind_ok]

/-- Claim C10, witness: the downmix theorem instantiated on a concrete
2-channel container with frames [10, 20] and [3, 4]. -/
theorem GetMonoData_spec_witness :
    GetMonoData c10wav = GoResult.ok [15, 7 / 2] := by
  have h := (GetMonoData_spec c10wav (by decide)).2 rfl
  rw [h]
  congr 1
  simp [c10wav]
  norm_num

/-- Claim C5: a streaming pull of numSamples frames on a header whose block
alignment is channel count times bytes per sample (bits 8 or 16, at least one
channel), with the single underlying Read returning readBytes and readErr:
a read error propagates unchanged; a byte count that is not an exact multiple
of block alignment fails with the misaligned-read error; otherwise exactly
amountRead / BlockAlign frames are decoded from the bytes read and returned,
each with channel-count slots. -/
theorem ReadSamples_spec (h : WavHeader) (numSamples : Nat) (readBytes : List Nat)
    (readErr : Option String)
    (hBA : h.BlockAlign = h.NumChannels * (h.BitsPerSample / 8))
    (hbits : h.BitsPerSample = 8 ∨ h.BitsPerSample = 16)
    (hC : 0 < h.NumChannels)
    (hlen : readBytes.length ≤ numSamples * h.BlockAlign) :
    (∀ e, readErr = some e → ReadSamples h numSamples readBytes readErr = .error e) ∧
    (readErr = none → readBytes.length % h.BlockAlign ≠ 0 →
      ReadSamples h numSamples readBytes readErr = .error errMisalignedMsg) ∧
    (readErr = none → readBytes.length % h.BlockAlign = 0 →
      ∃ frames, ReadSamples h numSamples readBytes readErr = .ok frames ∧
        frames.length = readBytes.length / h.BlockAlign ∧
        ∀ f ∈ frames, f.length = h.NumChannels) := by
  have hBA0 : h.BlockAlign ≠ 0 := by
    rcases hbits with hb | hb <;> rw [hBA, hb] <;> simp <;> omega
  refine ⟨?_, ?_, ?_⟩
  · rintro e rfl
    rfl
  · rintro rfl hm
    simp only [ReadSamples]
    rw [if_neg hBA0, if_pos hm]
  · rintro rfl hm
    have hdlen : (readBytes ++ List.replicate (numSamples * h.BlockAlign - readBytes.length) 0).length
        = numSamples * h.BlockAlign := by
      rw [List.length_append, List.length_replicate]
      omega
    have hn : readBytes.length / h.BlockAlign * h.BlockAlign = readBytes.length :=
      Nat.div_mul_cancel (Nat.dvd_of_mod_eq_zero hm)
    have hok : ∀ i, 0 ≤ i → i < 0 + readBytes.length / h.BlockAlign →
        ∃ s, readSampleFromData
          (readBytes ++ List.replicate (numSamples * h.BlockAlign - readBytes.length) 0) i h
          = .ok s ∧ s.length = h.NumChannels := by
      intro i _ hi2
      have hi1 : i + 1 ≤ readBytes.length / h.BlockAlign := by omega
      apply readSampleFromData_len
      intro c hc
      have hc1 : c + 1 ≤ h.NumChannels := hc
      apply readOneChannel_exists_ok
      · intro hb8
        have hBAC : h.BlockAlign = h.NumChannels := by
          rw [hBA, hb8]
          norm_num
        rw [hdlen]
        calc i * h.NumChannels + c
            < i * h.NumChannels + c + 1 := Nat.lt_succ_self _
          _ ≤ i * h.NumChannels + h.NumChannels := Nat.add_le_add_left hc1 _
          _ = (i + 1) * h.NumChannels := by ring
          _ ≤ (readBytes.length / h.BlockAlign) * h.NumChannels :=
              Nat.mul_le_mul_right _ hi1
          _ = (readBytes.length / h.BlockAlign) * h.BlockAlign := by rw [hBAC]
          _ = readBytes.length := hn
          _ ≤ numSamples * h.BlockAlign := hlen
      · intro hb16
        have hBAC : h.BlockAlign = h.NumChannels * 2 := by
          rw [hBA, hb16]
        rw [hdlen]
        calc 2 * i * h.NumChannels + c + 1
            ≤ 2 * i * h.NumChannels + h.NumChannels := Nat.add_le_add_left hc1 _
          _ < 2 * i * h.NumChannels + 2 * h.NumChannels := Nat.add_lt_add_left (by omega) _
          _ = (i + 1) * (h.NumChannels * 2) := by ring
          _ ≤ (readBytes.length / h.BlockAlign) * (h.NumChannels * 2) :=
              Nat.mul_le_mul_right _ hi1
          _ = (readBytes.length / h.BlockAlign) * h.BlockAlign := by rw [hBAC]
          _ = readBytes.length := hn
          _ ≤ numSamples * h.BlockAlign := hlen
    obtain ⟨frames, hfr, hflen, hfch⟩ :=
      decodeFramesAux_len
        (readBytes ++ List.replicate (numSamples * h.BlockAlign - readBytes.length) 0) h
        (readBytes.length / h.BlockAlign) 0 hok
    refine ⟨frames, ?_, hflen, hfch⟩
    simp only [ReadSamples]
    rw [if_neg hBA0, if_neg (show ¬ readBytes.length % h.BlockAlign ≠ 0 from fun hne => hne hm)]
    exact hfr

/-- Claim C5, witness: the misaligned-read branch instantiated on a 16-bit
mono header with block alignment 2 and a 3-byte read. -/
theorem ReadSamples_spec_witness :
    ReadSamples c5hdr 2 [100, 0, 156] none = GoResult.error errMisalignedMsg :=
  (ReadSamples_spec c5hdr 2 [100, 0, 156] none (by decide) (Or.inr (by decide))
    (by decide) (by decide)).2.1 rfl (by decide)
